import Mathlib

/-!
Verification of the audio core in src/spek-audio.cc: the source resolver
(Audio::open), the sample reader (AudioFileImpl::start / AudioFileImpl::read),
the sample normalizer (the switch inside read), and the interval scheduler
(the arithmetic at the end of start).

The external media-decoding library (libav) is modelled as an abstract
environment: the outcomes of its calls (open, probe, decoder lookup, packet
reads, decode steps) are data of the environment, and the functions below are
direct translations of the control flow of spek-audio.cc over that
environment.  Machine integers are modelled as Nat/Int: every quantity the
claims touch is nonnegative and far below 2^63 for valid inputs, so C int64
division, modulo and av_rescale_rnd(AV_ROUND_DOWN) agree with Nat.div/Nat.mod.
-/

namespace Spek

/-- Error codes of the audio layer (enum AudioError of spek-audio.h, in the
order the resolver can assign them in spek-audio.cc). -/
inductive AudioError
  | ok
  | cannotOpenDevice
  | cannotOpenFile
  | noStreams
  | noAudio
  | noDecoder
  | noDuration
  | noChannels
  | cannotOpenDecoder
  | badSampleFormat
deriving DecidableEq, Repr

/-- The three interval-scheduler outputs of AudioFileImpl (fields
frames_per_interval, error_per_interval, error_base), computed in
AudioFileImpl::start, spek-audio.cc lines 266-268. -/
structure IntervalPlan where
  frames_per_interval : Nat
  error_per_interval : Nat
  error_base : Nat
deriving DecidableEq, Repr

/-- The interval scheduler of AudioFileImpl::start (spek-audio.cc lines
264-268): rate = sample_rate * time_base.num, error_base = samples *
time_base.den, frames_per_interval = floor(duration_ticks * rate /
error_base) (av_rescale_rnd with AV_ROUND_DOWN), error_per_interval =
(duration_ticks * rate) mod error_base.  duration_ticks is the int64 cast of
duration * time_base.den / time_base.num computed at line 265, taken here as
the integer input the claims are phrased over. -/
def plan (duration_ticks sample_rate time_base_num time_base_den interval_count : Nat) :
    IntervalPlan :=
  let rate := sample_rate * time_base_num
  let error_base := interval_count * time_base_den
  { frames_per_interval := duration_ticks * rate / error_base
  , error_per_interval := duration_ticks * rate % error_base
  , error_base := error_base }

/-- The Bresenham error accumulation that the caller performs with an
IntervalPlan (described with the plan fields of spek-audio.cc): the
accumulator starts at 0, each interval consumes frames_per_interval frames
and adds error_per_interval; whenever the accumulator reaches error_base the
interval consumes one extra frame and error_base is subtracted.  Returns
(total frames consumed, accumulator value) after the given number of
intervals. -/
def bresenham (p : IntervalPlan) : Nat → Nat × Nat
  | 0 => (0, 0)
  | k+1 =>
    let r := bresenham p k
    let acc := r.2 + p.error_per_interval
    if p.error_base ≤ acc then (r.1 + p.frames_per_interval + 1, acc - p.error_base)
    else (r.1 + p.frames_per_interval, acc)

/-- One response of avcodec_decode_audio4 to a decode call on the remainder of
the current packet (spek-audio.cc lines 282-293): err is a negative return
(hard decode error), frame n is a nonnegative return with got_frame set and a
frame of n samples, noData is a nonnegative return with got_frame clear.  A
packet's decodable content is the list of responses the decoder gives as the
reader consumes it in order. -/
inductive DStep
  | err
  | frame (nb_samples : Nat)
  | noData
deriving DecidableEq, Repr

/-- One packet returned by av_read_frame: its stream index and its decodable
content. -/
structure RPacket where
  stream_index : Int
  steps : List DStep
deriving DecidableEq, Repr

/-- The mutable state of AudioFileImpl that start and read touch.  cur is the
decodable content remaining in the in-flight packet (empty when packet.size
is 0); pending is the sequence of packets av_read_frame will still return
for this container.  duration_ticks abstracts the int64 cast of
duration * time_base.den / time_base.num at line 265. -/
structure ReaderState where
  error : AudioError
  audio_stream : Int
  channel : Int
  channels : Int
  sample_rate : Nat
  time_base_num : Nat
  time_base_den : Nat
  duration_ticks : Nat
  frames_per_interval : Nat
  error_per_interval : Nat
  error_base : Nat
  cur : List DStep
  pending : List RPacket
deriving DecidableEq, Repr

/-- AudioFileImpl::start (spek-audio.cc lines 255-269): record the selected
channel, flag NO_CHANNELS when it is outside [0, channels), then compute the
interval plan from duration, sample rate and the stream time base. -/
def start (st : ReaderState) (channel : Int) (samples : Nat) : ReaderState :=
  let err := if channel < 0 ∨ st.channels ≤ channel then AudioError.noChannels else st.error
  let p := plan st.duration_ticks st.sample_rate st.time_base_num st.time_base_den samples
  { st with
    channel := channel
    error := err
    frames_per_interval := p.frames_per_interval
    error_per_interval := p.error_per_interval
    error_base := p.error_base }

/-- The inner while loop of AudioFileImpl::read (lines 278-342) on the current
packet's remaining content: a hard decode error (err) abandons the packet
(break, returning none); a response with no frame keeps decoding (continue);
a complete frame stops the loop, yielding its sample count and the packet
content still left for the next call; an exhausted packet yields none. -/
def decodeLoop : List DStep → Option (Nat × List DStep)
  | [] => none
  | DStep.err :: _ => none
  | DStep.frame n :: rest => some (n, rest)
  | DStep.noData :: rest => decodeLoop rest

/-- The combination of the av_read_frame loop (lines 350-360) with the outer
for(;;) loop of AudioFileImpl::read once the in-flight packet is gone: fetch
packets, freeing those whose stream index differs from the selected audio
stream (lines 351-356); at end of file or on a read error return 0 (lines
357-360); decode a matching packet with the inner while loop, and when it is
abandoned (hard decode error) or exhausted without a frame, release it and
keep fetching. -/
def readPackets (audio_stream : Int) : List RPacket → Int × List DStep × List RPacket
  | [] => (0, [], [])
  | p :: rest =>
    if p.stream_index = audio_stream then
      match decodeLoop p.steps with
      | some (n, rem) => ((n : Int), rem, rest)
      | none => readPackets audio_stream rest
    else readPackets audio_stream rest

/-- The body of AudioFileImpl::read after the error check (lines 277-361):
decode the current packet's remainder; when it yields a frame return its
sample count together with the new reader position; otherwise release it and
fall through to the packet-fetch loop. -/
def readLoop (audio_stream : Int) (cur : List DStep) (pending : List RPacket) :
    Int × List DStep × List RPacket :=
  match decodeLoop cur with
  | some (n, rest) => ((n : Int), rest, pending)
  | none => readPackets audio_stream pending

/-- AudioFileImpl::read (lines 271-361): a session already in error returns -1
at once without touching anything (lines 273-275); otherwise run the decode
state machine. -/
def read (st : ReaderState) : Int × ReaderState :=
  if st.error ≠ AudioError.ok then (-1, st)
  else
    let r := readLoop st.audio_stream st.cur st.pending
    (r.1, { st with cur := r.2.1, pending := r.2.2 })

/-- Source-offset computation of AudioFileImpl::read (lines 305-314) for one
sample of a complete frame, as the pair (plane picked from frame->data,
element index within that plane): a planar frame uses the selected channel's
plane at index sample; a packed frame uses plane 0 at index
sample * channels. -/
def sourceOffset (is_planar : Bool) (channel channels sample : Nat) : Nat × Nat :=
  if is_planar then (channel, sample) else (0, sample * channels)

/-- Modelled from the spec (§4.2) for comparison with sourceOffset: packed
layout addresses the single plane at sample * channelCount + channel. -/
def sourceOffsetSpec (is_planar : Bool) (channel channels sample : Nat) : Nat × Nat :=
  if is_planar then (channel, sample) else (0, sample * channels + channel)

/-- The nine cases of AVSampleFormat the resolver and the normalizer
distinguish: the eight recognized storage formats (lines 189-192) and any
other format, tagged by its raw enum value. -/
inductive SampleFmt
  | s16
  | s16p
  | s32
  | s32p
  | flt
  | fltp
  | dbl
  | dblp
  | other (tag : Int)
deriving DecidableEq, Repr

/-- A raw sample value as the reinterpret_cast in read (lines 319-333) reads
it: a 16-bit or 32-bit signed integer, or a 32-bit or 64-bit floating-point
value.  Float values are modelled as exact rationals; the claims under test
concern which constant divides and which values pass through, not binary
rounding. -/
inductive RawSample
  | i16 (v : Int)
  | i32 (v : Int)
  | f32 (v : ℚ)
  | f64 (v : ℚ)
deriving DecidableEq, Repr

/-- The sample-normalizing switch of AudioFileImpl::read (lines 316-338):
signed 16-bit divides by INT16_MAX = 32767, signed 32-bit by INT32_MAX =
2147483647, floats pass through (the double case is narrowed to float by the
assignment, value-preserving in this rational model), and the default case
produces 0.0.  A payload that cannot arise for the tag (the decoder fills
frame data in the declared format) is also mapped to 0. -/
def normalizeSample (format : SampleFmt) (raw : RawSample) : ℚ :=
  match format, raw with
  | SampleFmt.s16, RawSample.i16 v => (v : ℚ) / 32767
  | SampleFmt.s16p, RawSample.i16 v => (v : ℚ) / 32767
  | SampleFmt.s32, RawSample.i32 v => (v : ℚ) / 2147483647
  | SampleFmt.s32p, RawSample.i32 v => (v : ℚ) / 2147483647
  | SampleFmt.flt, RawSample.f32 v => v
  | SampleFmt.fltp, RawSample.f32 v => v
  | SampleFmt.dbl, RawSample.f64 v => v
  | SampleFmt.dblp, RawSample.f64 v => v
  | _, _ => 0

/-- Codec identifiers the resolver treats specially (lines 156-159): the four
families whose decoders set both bits-per-sample and bitrate, and all other
codec ids tagged by raw value. -/
inductive CodecId
  | aac
  | musepack8
  | wmav1
  | wmav2
  | otherCodec (tag : Int)
deriving DecidableEq, Repr

/-- The dual-report test of lines 156-159: AAC, Musepack SV8, WMA v1 and
WMA v2 set both bits-per-sample and bitrate. -/
def isDualReport : CodecId → Bool
  | CodecId.aac => true
  | CodecId.musepack8 => true
  | CodecId.wmav1 => true
  | CodecId.wmav2 => true
  | CodecId.otherCodec _ => false

/-- The recognized-sample-format gate of lines 188-194. -/
def recognizedFormat : SampleFmt → Bool
  | SampleFmt.s16 => true
  | SampleFmt.s16p => true
  | SampleFmt.s32 => true
  | SampleFmt.s32p => true
  | SampleFmt.flt => true
  | SampleFmt.fltp => true
  | SampleFmt.dbl => true
  | SampleFmt.dblp => true
  | SampleFmt.other _ => false

/-- One stream of the opened container as libav reports it to Audio::open:
its media type, codec metadata, and the outcomes of the libav calls made on
it (decoder lookup, decoder open).  duration_known models
avstream->duration != AV_NOPTS_VALUE, stream_duration the double
avstream->duration * av_q2d(time_base) as an exact rational. -/
structure StreamDesc where
  is_audio : Bool
  codec_id : CodecId
  decoder_found : Bool
  codec_long_name : String
  bit_rate : Int
  sample_rate : Int
  bits_per_raw_sample : Int
  bits_per_coded_sample : Int
  channels : Int
  duration_known : Bool
  stream_duration : ℚ
  decoder_open_ok : Bool
  sample_fmt : SampleFmt
deriving DecidableEq, Repr

/-- Placeholder stream used for the (unreachable) out-of-bounds lookup in the
model of format_context->streams[audio_stream]. -/
def dfltStream : StreamDesc :=
  { is_audio := false, codec_id := CodecId.otherCodec 0, decoder_found := false
  , codec_long_name := "", bit_rate := 0, sample_rate := 0, bits_per_raw_sample := 0
  , bits_per_coded_sample := 0, channels := 0, duration_known := false
  , stream_duration := 0, decoder_open_ok := false, sample_fmt := SampleFmt.other 0 }

/-- The abstract libav environment a single Audio::open call runs against:
the outcomes of opening the input, probing stream info, the container's
streams, and the container-level duration (container_duration_known models
format_context->duration != AV_NOPTS_VALUE). -/
structure OpenEnv where
  device_name_empty : Bool
  alsa_found : Bool
  open_input_ok : Bool
  find_stream_info_ok : Bool
  streams : List StreamDesc
  container_duration_known : Bool
  container_duration : ℚ
deriving DecidableEq, Repr

/-- The values Audio::open passes to the AudioFileImpl constructor (lines
201-205): the error code and the StreamInfo fields. -/
structure OpenResult where
  error : AudioError
  audio_stream : Int
  codec_name : String
  bit_rate : Int
  sample_rate : Int
  bits_per_sample : Int
  streams : Nat
  channels : Int
  duration : ℚ
deriving DecidableEq, Repr

/-- The variables of Audio::open at their declarations (lines 112-113 and
140-145): every StreamInfo field starts at its zero default, audio_stream
at -1. -/
def baseResult : OpenResult :=
  { error := AudioError.ok, audio_stream := -1, codec_name := "", bit_rate := 0
  , sample_rate := 0, bits_per_sample := 0, streams := 0, channels := 0, duration := 0 }

/-- The stream-selection loop of Audio::open (lines 115-122): walk the
container's streams in order; for each audio stream, if the running count of
audio streams equals the requested index, remember this container position;
always keep counting.  Returns (audio_stream, number of audio streams). -/
def selectLoop (req : Int) : List StreamDesc → Nat → Int → Nat → Int × Nat
  | [], _, acc, cnt => (acc, cnt)
  | s :: rest, i, acc, cnt =>
    if s.is_audio then
      selectLoop req rest (i + 1) (if req = (cnt : Int) then (i : Int) else acc) (cnt + 1)
    else
      selectLoop req rest (i + 1) acc cnt

/-- The container position of the selected audio stream (the audio_stream
variable after the loop of lines 115-122). -/
def selectedIndex (env : OpenEnv) (req : Int) : Int :=
  (selectLoop req env.streams 0 (-1) 0).1

/-- The number of audio streams in the container (the streams variable after
the loop of lines 115-122). -/
def selectedCount (env : OpenEnv) (req : Int) : Nat :=
  (selectLoop req env.streams 0 (-1) 0).2

/-- format_context->streams[audio_stream] for the selected stream. -/
def selectedStream (env : OpenEnv) (req : Int) : StreamDesc :=
  env.streams.getD (selectedIndex env req).toNat dfltStream

/-- bits_per_sample as lines 151-162 compute it: bits_per_raw_sample, or else
bits_per_coded_sample, zeroed for the dual-reporting codec families. -/
def resolvedBps (sd : StreamDesc) : Int :=
  let bps := if sd.bits_per_raw_sample ≠ 0 then sd.bits_per_raw_sample
             else sd.bits_per_coded_sample
  if isDualReport sd.codec_id then 0 else bps

/-- bit_rate as lines 149 and 163-165 compute it: the codec's bit rate,
zeroed when the resolved bits_per_sample is non-zero. -/
def resolvedBitRate (sd : StreamDesc) : Int :=
  if resolvedBps sd ≠ 0 then 0 else sd.bit_rate

/-- The tail checks of Audio::open after duration resolution succeeded
(lines 178-195): non-positive channel count, decoder open failure,
unrecognized sample format. -/
def finishOpen (info : OpenResult) (sd : StreamDesc) : OpenResult :=
  if sd.channels ≤ 0 then { info with error := AudioError.noChannels }
  else if ¬sd.decoder_open_ok then { info with error := AudioError.cannotOpenDecoder }
  else if ¬recognizedFormat sd.sample_fmt then { info with error := AudioError.badSampleFormat }
  else info

/-- The StreamInfo fields filled in at lines 146-166, before duration
resolution: codec long name, bit rate and bits per sample after the
dual-report suppression, sample rate, audio stream count, channel count. -/
def streamInfo (env : OpenEnv) (req : Int) (sd : StreamDesc) : OpenResult :=
  { baseResult with
    audio_stream := selectedIndex env req
    codec_name := sd.codec_long_name
    bit_rate := resolvedBitRate sd
    sample_rate := sd.sample_rate
    bits_per_sample := resolvedBps sd
    streams := selectedCount env req
    channels := sd.channels }

/-- Duration resolution (lines 168-176) followed by the tail checks: stream
duration if known, else container duration if known, else a fixed 60 seconds
for a live device, else the NO_DURATION failure that skips every later
step. -/
def openDuration (env : OpenEnv) (info : OpenResult) (sd : StreamDesc) : OpenResult :=
  if sd.duration_known then
    finishOpen { info with duration := sd.stream_duration } sd
  else if env.container_duration_known then
    finishOpen { info with duration := env.container_duration } sd
  else if ¬env.device_name_empty then
    finishOpen { info with duration := 60 } sd
  else
    { info with error := AudioError.noDuration }

/-- Audio::open (spek-audio.cc lines 76-206) over the abstract libav
environment: the chain of error-guarded steps, each failure skipping every
later step while the already-computed fields are still handed to the
constructed AudioFileImpl. -/
def openResult (env : OpenEnv) (req : Int) : OpenResult :=
  if ¬env.device_name_empty ∧ ¬env.alsa_found then
    { baseResult with error := AudioError.cannotOpenDevice }
  else if ¬env.open_input_ok then
    { baseResult with error := AudioError.cannotOpenFile }
  else if ¬env.find_stream_info_ok ∧ env.streams.length = 0 then
    { baseResult with error := AudioError.noStreams }
  else if selectedIndex env req = -1 then
    { baseResult with error := AudioError.noAudio, streams := selectedCount env req }
  else if ¬(selectedStream env req).decoder_found then
    { baseResult with
      error := AudioError.noDecoder
      audio_stream := selectedIndex env req
      streams := selectedCount env req }
  else
    openDuration env (streamInfo env req (selectedStream env req)) (selectedStream env req)

/-- A concrete reader session with no pending error, used to instantiate the
reader theorems. -/
def sampleState : ReaderState :=
  { error := AudioError.ok, audio_stream := 0, channel := 0, channels := 2
  , sample_rate := 44100, time_base_num := 1, time_base_den := 90000
  , duration_ticks := 90000, frames_per_interval := 0, error_per_interval := 0
  , error_base := 0, cur := [], pending := [] }

/-- A concrete audio stream with full metadata, used to instantiate the
resolver theorems. -/
def sampleStream : StreamDesc :=
  { is_audio := true, codec_id := CodecId.otherCodec 1, decoder_found := true
  , codec_long_name := "FLAC", bit_rate := 1411, sample_rate := 44100
  , bits_per_raw_sample := 16, bits_per_coded_sample := 0, channels := 2
  , duration_known := false, stream_duration := 0, decoder_open_ok := true
  , sample_fmt := SampleFmt.s16 }

/-- A concrete environment whose probe call succeeds on a container with a
single audio stream, used to instantiate the resolver theorems. -/
def sampleEnv : OpenEnv :=
  { device_name_empty := true, alsa_found := false, open_input_ok := true
  , find_stream_info_ok := true, streams := [sampleStream]
  , container_duration_known := false, container_duration := 0 }

/-- A concrete environment whose probe call fails on a container reporting 0
streams. -/
def sampleEnvProbeFail : OpenEnv :=
  { device_name_empty := true, alsa_found := false, open_input_ok := true
  , find_stream_info_ok := false, streams := []
  , container_duration_known := false, container_duration := 0 }

/-- A concrete environment whose probe call succeeds on a container reporting
0 streams. -/
def sampleEnvNoStreams : OpenEnv :=
  { device_name_empty := true, alsa_found := false, open_input_ok := true
  , find_stream_info_ok := true, streams := []
  , container_duration_known := false, container_duration := 0 }

/-- A concrete environment on which resolution fully succeeds. -/
def sampleEnvOk : OpenEnv :=
  { device_name_empty := true, alsa_found := false, open_input_ok := true
  , find_stream_info_ok := true
  , streams := [{ sampleStream with duration_known := true, stream_duration := 180 }]
  , container_duration_known := false, container_duration := 0 }

theorem step_div_mod_ge (x e m : Nat) (hm : 0 < m) (he : e < m) (hge : m ≤ x % m + e) :
    (x + e) / m = x / m + 1 ∧ (x + e) % m = x % m + e - m := by
  have hx := Nat.div_add_mod x m
  have hxm := Nat.mod_lt x hm
  have hsucc : m * (x / m + 1) = m * (x / m) + m := by ring
  have hrw : x + e = m * (x / m + 1) + (x % m + e - m) := by omega
  have hsmall : x % m + e - m < m := by omega
  constructor
  · rw [hrw, Nat.mul_add_div hm, Nat.div_eq_of_lt hsmall]
  · rw [hrw, Nat.mul_add_mod, Nat.mod_eq_of_lt hsmall]

theorem step_div_mod_lt (x e m : Nat) (hm : 0 < m) (hlt : x % m + e < m) :
    (x + e) / m = x / m ∧ (x + e) % m = x % m + e := by
  have hx := Nat.div_add_mod x m
  have hrw : x + e = m * (x / m) + (x % m + e) := by omega
  constructor
  · rw [hrw, Nat.mul_add_div hm, Nat.div_eq_of_lt hlt, Nat.add_zero]
  · rw [hrw, Nat.mul_add_mod, Nat.mod_eq_of_lt hlt]

theorem bresenham_closed (q e m : Nat) (hm : 0 < m) (he : e < m) (k : Nat) :
    bresenham ⟨q, e, m⟩ k = (k * q + k * e / m, k * e % m) := by
  induction k with
  | zero => simp [bresenham]
  | succ k ih =>
    have hke : (k + 1) * e = k * e + e := Nat.succ_mul k e
    have hkq : (k + 1) * q = k * q + q := Nat.succ_mul k q
    rw [bresenham, ih]
    simp only
    by_cases hcase : m ≤ k * e % m + e
    · have hstep := step_div_mod_ge (k * e) e m hm he hcase
      rw [if_pos hcase]
      refine Prod.ext ?_ ?_
      · simp only
        rw [hke, hstep.1]
        omega
      · simp only
        rw [hke, hstep.2]
    · have hstep := step_div_mod_lt (k * e) e m hm (by omega)
      rw [if_neg hcase]
      refine Prod.ext ?_ ?_
      · simp only
        rw [hke, hstep.1]
        omega
      · simp only
        rw [hke, hstep.2]

theorem plan_total (T sr num d N : Nat) (hd : 0 < d) (hN : 0 < N) :
    (bresenham (plan T sr num d N) N).1 = T * (sr * num) / d := by
  have hm : 0 < N * d := Nat.mul_pos hN hd
  have hplan : plan T sr num d N
      = ⟨T * (sr * num) / (N * d), T * (sr * num) % (N * d), N * d⟩ := rfl
  rw [hplan, bresenham_closed _ _ _ hm (Nat.mod_lt _ hm)]
  simp only
  have hmd : N * (T * (sr * num) % (N * d)) / (N * d) = T * (sr * num) % (N * d) / d :=
    Nat.mul_div_mul_left _ _ hN
  rw [hmd]
  have hsplit := Nat.div_add_mod (T * (sr * num)) (N * d)
  have hrw : T * (sr * num)
      = d * (N * (T * (sr * num) / (N * d))) + T * (sr * num) % (N * d) := by
    have : N * d * (T * (sr * num) / (N * d)) = d * (N * (T * (sr * num) / (N * d))) := by ring
    omega
  conv_rhs => rw [hrw]
  rw [Nat.mul_add_div hd]

/-- Claim C1: for every valid input with intervalCount ≥ 1, the sum over all
intervalCount intervals of frames_per_interval plus the extra frames produced
by the Bresenham error accumulation equals floor(durationTicks * rate /
timeBaseDen) exactly, in integer arithmetic. -/
theorem C1_bresenham_sum_exact (T sr num d N : Nat) (hd : 0 < d) (hN : 1 ≤ N) :
    (bresenham (plan T sr num d N) N).1 = T * (sr * num) / d :=
  plan_total T sr num d N hd hN

/-- Witness for C1 at durationTicks 3, sampleRate 44100, time base 1/30000,
intervalCount 7. -/
theorem C1_bresenham_sum_exact_witness :
    0 < 30000 ∧ 1 ≤ 7
    ∧ (bresenham (plan 3 44100 1 30000 7) 7).1 = 3 * (44100 * 1) / 30000 :=
  ⟨by decide, by decide,
    C1_bresenham_sum_exact 3 44100 1 30000 7 (by decide) (by decide)⟩

/-- Counterexample to claim C3 as stated: at durationTicks 1, sampleRate 7,
time base 1/3 and intervalCount 1, error_per_interval is (1*7) mod 3 = 1,
not 0. -/
theorem C3_counterexample :
    (plan 1 7 1 3 1).error_per_interval = 1
    ∧ (plan 1 7 1 3 1).error_per_interval ≠ 0 := by
  decide

/-- Claim C3 (amended): for every valid input with intervalCount = 1,
frames_per_interval equals the total frame count
floor(durationTicks * rate / timeBaseDen), and error_per_interval equals
(durationTicks * rate) mod timeBaseDen, which need not be 0. -/
theorem C3_single_interval (T sr num d : Nat) (hd : 0 < d) :
    (plan T sr num d 1).frames_per_interval = T * (sr * num) / d
    ∧ (plan T sr num d 1).error_per_interval = T * (sr * num) % d := by
  constructor
  · simp [plan]
  · simp [plan]

/-- Witness for the amended C3 at durationTicks 2, sampleRate 5, time base
1/3. -/
theorem C3_single_interval_witness :
    0 < 3
    ∧ (plan 2 5 1 3 1).frames_per_interval = 2 * (5 * 1) / 3
    ∧ (plan 2 5 1 3 1).error_per_interval = 2 * (5 * 1) % 3 :=
  ⟨by decide, (C3_single_interval 2 5 1 3 (by decide)).1,
    (C3_single_interval 2 5 1 3 (by decide)).2⟩

/-- Claim C2, evaluated at the failing input: for a packed (non-planar)
frame with channels = 2, selected channel 1, sample index 3, the code of
read (line 313) addresses plane 0 at element 6 — channel 0's slot — while
the spec's addressing sample * channelCount + channel gives element 7.  The
selected channel is ignored for every packed layout. -/
theorem C2_packed_offset_bug :
    sourceOffset false 1 2 3 = (0, 6)
    ∧ sourceOffsetSpec false 1 2 3 = (0, 7)
    ∧ sourceOffset false 1 2 3 ≠ sourceOffsetSpec false 1 2 3 := by
  decide

/-- Claim C8: the sample normalizer maps signed 16-bit samples to
value / 32767, signed 32-bit samples to value / 2147483647, passes 32-bit
float samples through unchanged, narrows 64-bit float samples
value-preservingly, and maps any unrecognized tag to 0. -/
theorem C8_normalizer_mapping :
    (∀ v : Int, normalizeSample SampleFmt.s16 (RawSample.i16 v) = (v : ℚ) / 32767
      ∧ normalizeSample SampleFmt.s16p (RawSample.i16 v) = (v : ℚ) / 32767)
    ∧ (∀ v : Int, normalizeSample SampleFmt.s32 (RawSample.i32 v) = (v : ℚ) / 2147483647
      ∧ normalizeSample SampleFmt.s32p (RawSample.i32 v) = (v : ℚ) / 2147483647)
    ∧ (∀ v : ℚ, normalizeSample SampleFmt.flt (RawSample.f32 v) = v
      ∧ normalizeSample SampleFmt.fltp (RawSample.f32 v) = v)
    ∧ (∀ v : ℚ, normalizeSample SampleFmt.dbl (RawSample.f64 v) = v
      ∧ normalizeSample SampleFmt.dblp (RawSample.f64 v) = v)
    ∧ (∀ (t : Int) (raw : RawSample), normalizeSample (SampleFmt.other t) raw = 0) := by
  refine ⟨fun v => ⟨rfl, rfl⟩, fun v => ⟨rfl, rfl⟩, fun v => ⟨rfl, rfl⟩,
    fun v => ⟨rfl, rfl⟩, fun t raw => ?_⟩
  cases raw <;> rfl

/-- Claim C4: start with a channel index outside [0, channels) sets the
session to the NO_CHANNELS terminal error, and a session whose error state
is set has every read call return -1 immediately with the session state
untouched. -/
theorem C4_terminal_error :
    (∀ (st : ReaderState) (c : Int) (n : Nat), (c < 0 ∨ st.channels ≤ c) →
      (start st c n).error = AudioError.noChannels)
    ∧ ∀ st : ReaderState, st.error ≠ AudioError.ok → read st = (-1, st) := by
  constructor
  · intro st c n hc
    simp [start, hc]
  · intro st herr
    simp [read, herr]

/-- Witness for C4: channel 2 is out of range for a 2-channel session, and a
session in the NO_CHANNELS error state reads -1 without a state change. -/
theorem C4_terminal_error_witness :
    (start sampleState 2 4).error = AudioError.noChannels
    ∧ read { sampleState with error := AudioError.noChannels }
        = (-1, { sampleState with error := AudioError.noChannels }) :=
  ⟨C4_terminal_error.1 sampleState 2 4 (by decide),
    C4_terminal_error.2 { sampleState with error := AudioError.noChannels } (by decide)⟩

theorem decodeLoop_noData_err (pre tail : List DStep)
    (hpre : ∀ s ∈ pre, s = DStep.noData) :
    decodeLoop (pre ++ DStep.err :: tail) = none := by
  induction pre with
  | nil => rfl
  | cons a as ih =>
    have ha : a = DStep.noData := hpre a (by simp)
    subst ha
    rw [List.cons_append]
    show decodeLoop (DStep.noData :: (as ++ DStep.err :: tail)) = none
    rw [decodeLoop]
    exact ih fun s hs => hpre s (by simp [hs])

theorem readPackets_skip (a : Int) (skip l : List RPacket)
    (hskip : ∀ q ∈ skip, q.stream_index ≠ a) :
    readPackets a (skip ++ l) = readPackets a l := by
  induction skip with
  | nil => rfl
  | cons q qs ih =>
    rw [List.cons_append, readPackets, if_neg (hskip q (by simp))]
    exact ih fun r hr => hskip r (by simp [hr])

theorem readPackets_hit (a : Int) (p : RPacket) (rest : List RPacket)
    (n : Nat) (rem : List DStep) (hp : p.stream_index = a)
    (hdec : decodeLoop p.steps = some (n, rem)) :
    readPackets a (p :: rest) = ((n : Int), rem, rest) := by
  rw [readPackets, if_pos hp, hdec]

theorem readLoop_abandoned (a : Int) (cur : List DStep) (pending : List RPacket)
    (h : decodeLoop cur = none) : readLoop a cur pending = readPackets a pending := by
  rw [readLoop, h]

/-- Claim C7: when read meets a packet whose decode call reports a hard error
mid-packet, it abandons the remainder of that packet, fetches further
packets (skipping ones for other streams), and returns the frame of the next
valid packet within the same call — neither -1 nor 0. -/
theorem C7_error_packet_skipped (st : ReaderState) (pre tail rem : List DStep)
    (skip rest : List RPacket) (p : RPacket) (n : Nat)
    (hok : st.error = AudioError.ok)
    (hpre : ∀ s ∈ pre, s = DStep.noData)
    (hcur : st.cur = pre ++ DStep.err :: tail)
    (hpend : st.pending = skip ++ p :: rest)
    (hskip : ∀ q ∈ skip, q.stream_index ≠ st.audio_stream)
    (hp : p.stream_index = st.audio_stream)
    (hdec : decodeLoop p.steps = some (n, rem))
    (hn : 0 < n) :
    (read st).1 = (n : Int) ∧ (read st).1 ≠ -1 ∧ (read st).1 ≠ 0 := by
  have hnone : decodeLoop st.cur = none := by
    rw [hcur]
    exact decodeLoop_noData_err pre tail hpre
  have hloop : readLoop st.audio_stream st.cur st.pending = ((n : Int), rem, rest) := by
    rw [readLoop_abandoned _ _ _ hnone, hpend,
      readPackets_skip _ _ _ hskip, readPackets_hit _ _ _ _ _ hp hdec]
  have hread : read st = ((n : Int), { st with cur := rem, pending := rest }) := by
    unfold read
    rw [if_neg fun hcon => hcon hok]
    simp only [hloop]
  rw [hread]
  refine ⟨rfl, ?_, ?_⟩
  · show (n : Int) ≠ -1
    omega
  · show (n : Int) ≠ 0
    omega

/-- Witness for C7: the in-flight packet errors after one empty decode, the
next pending packet belongs to another stream, and the one after it decodes
to a 4-sample frame; the call returns 4. -/
theorem C7_error_packet_skipped_witness :
    (read { sampleState with
      cur := [DStep.noData, DStep.err, DStep.noData]
      pending := [⟨1, []⟩, ⟨0, [DStep.frame 4]⟩] }).1 = (4 : Int)
    ∧ (read { sampleState with
      cur := [DStep.noData, DStep.err, DStep.noData]
      pending := [⟨1, []⟩, ⟨0, [DStep.frame 4]⟩] }).1 ≠ -1
    ∧ (read { sampleState with
      cur := [DStep.noData, DStep.err, DStep.noData]
      pending := [⟨1, []⟩, ⟨0, [DStep.frame 4]⟩] }).1 ≠ 0 :=
  C7_error_packet_skipped _ [DStep.noData] [DStep.noData] [] [⟨1, []⟩] []
    ⟨0, [DStep.frame 4]⟩ 4 rfl (by decide) rfl rfl (by decide) rfl rfl (by decide)

/-- Claim C5: resolution failures short-circuit but still return the fields
determined before the failing step; in particular a stream with no
stream-level duration, no container-level duration and no live device fails
with NO_DURATION while codec name, bit rate, sample rate, bits per sample,
channel count and the audio-stream count are already populated. -/
theorem C5_no_duration_keeps_metadata (env : OpenEnv) (req : Int)
    (hdev : env.device_name_empty = true)
    (hopen : env.open_input_ok = true)
    (hprobe : ¬(¬env.find_stream_info_ok ∧ env.streams.length = 0))
    (hsel : selectedIndex env req ≠ -1)
    (hdecoder : (selectedStream env req).decoder_found = true)
    (hsdur : (selectedStream env req).duration_known = false)
    (hcdur : env.container_duration_known = false) :
    (openResult env req).error = AudioError.noDuration
    ∧ (openResult env req).codec_name = (selectedStream env req).codec_long_name
    ∧ (openResult env req).bit_rate = resolvedBitRate (selectedStream env req)
    ∧ (openResult env req).sample_rate = (selectedStream env req).sample_rate
    ∧ (openResult env req).bits_per_sample = resolvedBps (selectedStream env req)
    ∧ (openResult env req).channels = (selectedStream env req).channels
    ∧ (openResult env req).streams = selectedCount env req
    ∧ (openResult env req).duration = 0 := by
  have hprobe2 : env.find_stream_info_ok = true ∨ env.streams ≠ [] := by
    by_cases hf : env.find_stream_info_ok = true
    · exact Or.inl hf
    · exact Or.inr fun hnil => hprobe ⟨hf, by simp [hnil]⟩
  unfold openResult openDuration
  rcases hprobe2 with h2 | h2 <;>
    simp [streamInfo, baseResult, hdev, hopen, h2, hsel, hdecoder, hsdur, hcdur]

/-- Witness for C5 on a concrete environment with full codec metadata and no
duration anywhere. -/
theorem C5_no_duration_keeps_metadata_witness :
    (openResult sampleEnv 0).error = AudioError.noDuration
    ∧ (openResult sampleEnv 0).codec_name = (selectedStream sampleEnv 0).codec_long_name
    ∧ (openResult sampleEnv 0).bit_rate = resolvedBitRate (selectedStream sampleEnv 0)
    ∧ (openResult sampleEnv 0).sample_rate = (selectedStream sampleEnv 0).sample_rate
    ∧ (openResult sampleEnv 0).bits_per_sample = resolvedBps (selectedStream sampleEnv 0)
    ∧ (openResult sampleEnv 0).channels = (selectedStream sampleEnv 0).channels
    ∧ (openResult sampleEnv 0).streams = selectedCount sampleEnv 0
    ∧ (openResult sampleEnv 0).duration = 0 :=
  C5_no_duration_keeps_metadata sampleEnv 0 rfl rfl (by decide) (by decide) rfl rfl rfl

/-- Counterexample to claim C6 as stated: when the probe call succeeds and
the container reports 0 streams, resolution fails with NO_AUDIO, not
NO_STREAMS. -/
theorem C6_counterexample :
    sampleEnvNoStreams.streams.length = 0
    ∧ (openResult sampleEnvNoStreams 0).error = AudioError.noAudio
    ∧ (openResult sampleEnvNoStreams 0).error ≠ AudioError.noStreams :=
  ⟨rfl, rfl, by decide⟩

/-- Claim C6 (amended): when the probe call fails and the container reports 0
streams, resolution fails with NO_STREAMS and every StreamInfo field keeps
its zero default; a probe failure that still yields streams is tolerated,
and probe success with 0 streams yields NO_AUDIO instead. -/
theorem C6_probe_fail_no_streams (env : OpenEnv) (req : Int)
    (hdev : env.device_name_empty = true ∨ env.alsa_found = true)
    (hopen : env.open_input_ok = true)
    (hprobe : env.find_stream_info_ok = false)
    (hzero : env.streams.length = 0) :
    openResult env req = { baseResult with error := AudioError.noStreams } := by
  unfold openResult
  rcases hdev with h | h <;> simp [h, hopen, hprobe, hzero]

/-- Witness for the amended C6 on a concrete failing-probe environment. -/
theorem C6_probe_fail_no_streams_witness :
    openResult sampleEnvProbeFail 0 = { baseResult with error := AudioError.noStreams } :=
  C6_probe_fail_no_streams sampleEnvProbeFail 0 (Or.inl rfl) rfl rfl rfl

theorem finishOpen_keeps_fields (info : OpenResult) (sd : StreamDesc) :
    (finishOpen info sd).bits_per_sample = info.bits_per_sample
    ∧ (finishOpen info sd).bit_rate = info.bit_rate := by
  unfold finishOpen
  split
  · exact ⟨rfl, rfl⟩
  · split
    · exact ⟨rfl, rfl⟩
    · split
      · exact ⟨rfl, rfl⟩
      · exact ⟨rfl, rfl⟩

theorem openDuration_keeps_fields (env : OpenEnv) (info : OpenResult) (sd : StreamDesc) :
    (openDuration env info sd).bits_per_sample = info.bits_per_sample
    ∧ (openDuration env info sd).bit_rate = info.bit_rate := by
  unfold openDuration
  split
  · exact finishOpen_keeps_fields _ _
  · split
    · exact finishOpen_keeps_fields _ _
    · split
      · exact finishOpen_keeps_fields _ _
      · exact ⟨rfl, rfl⟩

theorem openResult_ok_fields (env : OpenEnv) (req : Int) :
    (openResult env req).error = AudioError.ok →
    (openResult env req).bits_per_sample = resolvedBps (selectedStream env req)
    ∧ (openResult env req).bit_rate = resolvedBitRate (selectedStream env req) := by
  unfold openResult
  split
  · intro h
    simp at h
  · split
    · intro h
      simp at h
    · split
      · intro h
        simp at h
      · split
        · intro h
          simp at h
        · split
          · intro h
            simp at h
          · intro _
            exact openDuration_keeps_fields env _ _

/-- Claim C9: for every successfully resolved source at most one of bit_rate
and bits_per_sample is non-zero; the dual-reporting codec families (AAC,
Musepack SV8, WMA v1, WMA v2) have bits_per_sample forced to 0, and
otherwise a non-zero bits_per_sample forces bit_rate to 0. -/
theorem C9_bit_rate_bits_exclusive (env : OpenEnv) (req : Int)
    (hok : (openResult env req).error = AudioError.ok) :
    ((openResult env req).bit_rate = 0 ∨ (openResult env req).bits_per_sample = 0)
    ∧ (isDualReport (selectedStream env req).codec_id = true →
        (openResult env req).bits_per_sample = 0)
    ∧ ((openResult env req).bits_per_sample ≠ 0 → (openResult env req).bit_rate = 0) := by
  obtain ⟨hbps, hbr⟩ := openResult_ok_fields env req hok
  rw [hbps, hbr]
  refine ⟨?_, ?_, ?_⟩
  · unfold resolvedBitRate
    by_cases h : resolvedBps (selectedStream env req) = 0
    · exact Or.inr h
    · rw [if_pos h]
      exact Or.inl rfl
  · intro hdual
    unfold resolvedBps
    simp [hdual]
  · intro hne
    unfold resolvedBitRate
    rw [if_pos hne]

/-- Witness for C9 on a concrete fully-resolving environment where the codec
reports 16 bits per sample, so the bit rate is suppressed. -/
theorem C9_bit_rate_bits_exclusive_witness :
    ((openResult sampleEnvOk 0).bit_rate = 0 ∨ (openResult sampleEnvOk 0).bits_per_sample = 0)
    ∧ (isDualReport (selectedStream sampleEnvOk 0).codec_id = true →
        (openResult sampleEnvOk 0).bits_per_sample = 0)
    ∧ ((openResult sampleEnvOk 0).bits_per_sample ≠ 0 →
        (openResult sampleEnvOk 0).bit_rate = 0) :=
  C9_bit_rate_bits_exclusive sampleEnvOk 0 rfl

theorem selectLoop_neg (req : Int) (hreq : req < 0) :
    ∀ (l : List StreamDesc) (i cnt : Nat), (selectLoop req l i (-1) cnt).1 = -1 := by
  intro l
  induction l with
  | nil =>
    intro i cnt
    rfl
  | cons s rest ih =>
    intro i cnt
    rw [selectLoop]
    by_cases hs : s.is_audio = true
    · rw [if_pos hs, if_neg (by omega : ¬req = (cnt : Int))]
      exact ih (i + 1) (cnt + 1)
    · rw [if_neg hs]
      exact ih (i + 1) cnt

/-- Claim C10: a negative requested stream index makes resolution fail with
NO_AUDIO — the error for too few audio streams — and the selected stream
position stays at -1: a negative index is never accepted or wrapped. -/
theorem C10_negative_index_no_audio (env : OpenEnv) (req : Int)
    (hreq : req < 0)
    (hdev : env.device_name_empty = true ∨ env.alsa_found = true)
    (hopen : env.open_input_ok = true)
    (hprobe : env.find_stream_info_ok = true ∨ env.streams.length ≠ 0) :
    (openResult env req).error = AudioError.noAudio
    ∧ (openResult env req).audio_stream = -1 := by
  have hsel : selectedIndex env req = -1 := selectLoop_neg req hreq env.streams 0 0
  unfold openResult
  rcases hdev with h | h <;> rcases hprobe with h2 | h2 <;>
    simp [baseResult, h, h2, hopen, hsel]

/-- Witness for C10: requesting stream -1 on a one-audio-stream container
resolves to NO_AUDIO with audio_stream still -1. -/
theorem C10_negative_index_no_audio_witness :
    (openResult sampleEnv (-1)).error = AudioError.noAudio
    ∧ (openResult sampleEnv (-1)).audio_stream = -1 :=
  C10_negative_index_no_audio sampleEnv (-1) (by decide) (Or.inl rfl) rfl (Or.inl rfl)
